import Mathlib

/-!
Verification of the scroll/reveal/navigation behaviour of the page-enhancement
script in quinc-fptu/MQT (src/script.js).

The source file contains two near-duplicate versions of the script, separated
by a document separator: version 1 occupies lines 1-881 and version 2 lines
883-1514.  The definitions below are shallow embeddings of the individual
handlers, translated directly from the JavaScript source.  Geometry values
(bounding-box top offsets, viewport heights, scroll positions) are modelled as
rationals, since the corresponding JavaScript numbers are fractional; the
threshold comparisons used by the script are exact at these magnitudes.

Per-element CSS class state is modelled as a Bool (presence of the marker
class), and a full class list is modelled as a List String where the DOM
classList operations need it.
-/

namespace MQT

/-- One run of the reveal branch of revealOnScroll (version 1, src/script.js
lines 482-489) on a single reveal-tagged element.  The JS reads
element.getBoundingClientRect().top and window.innerHeight and executes
`if (elementTop < windowHeight - 100) element.classList.add('active')`;
there is no else branch, so an element that does not satisfy the predicate
keeps whatever marker state it already had (classList.add of a present class
is a no-op). -/
def revealStep (active : Bool) (t h : ℚ) : Bool :=
  if t < h - 100 then true else active

/-- One run of the reveal branch of revealOnScroll in the second version of
the script (src/script.js lines 1280-1287), transcribed independently from
that location; same read of the rect top and viewport height, same strict
threshold, no else branch. -/
def revealStepV2 (active : Bool) (t h : ℚ) : Bool :=
  if t < h - 100 then true else active

/-- Folding revealStep over a sequence of subsequent observations
(top offset, viewport height) of the same element: repeated runs of the
evaluator as the user keeps scrolling. -/
def revealRuns (a : Bool) (obs : List (ℚ × ℚ)) : Bool :=
  obs.foldl (fun acc th => revealStep acc th.1 th.2) a

/-- One run of the section-highlight branch of revealOnScroll (version 1,
src/script.js lines 492-532) on a single section.  The JS tests
`sectionTop < windowHeight - 50 && sectionTop > -windowHeight/2`; the then
branch adds the classes 'section-highlight' and 'active' and the else branch
removes them, so the resulting marker state is a function of the current
geometry only, independent of the previous state. -/
def highlightStep (active : Bool) (t h : ℚ) : Bool :=
  if t < h - 50 ∧ t > (-h) / 2 then true else false

theorem revealStep_true (t h : ℚ) : revealStep true t h = true := by
  unfold revealStep
  split <;> rfl

/-- C1: for a reveal-tagged element in its initial, unrevealed state (the
page-load state, before any run has added the marker), one run of the
scroll-reveal evaluator leaves the 'active' marker present exactly when
t < h - 100; in particular at t = h - 100 the predicate is false and the
marker is not added (the boundary is strict). -/
theorem revealStep_boundary (t h : ℚ) :
    (revealStep false t h = true ↔ t < h - 100) ∧
      revealStep false (h - 100) h = false := by
  constructor
  · by_cases hc : t < h - 100 <;> simp [revealStep, hc]
  · simp [revealStep]

/-- C9: the two versions of the script compute equivalent reveal decisions:
for every marker state, top offset and viewport height, the first version's
evaluator and the second version's evaluator produce the same result. -/
theorem revealStep_versions_equivalent (a : Bool) (t h : ℚ) :
    revealStep a t h = revealStepV2 a t h := rfl

/-- C8: the reveal family is monotonic and one-shot: once the marker is
present, no sequence of subsequent evaluator runs, at any later geometry,
removes it. -/
theorem revealRuns_monotone (obs : List (ℚ × ℚ)) :
    revealRuns true obs = true := by
  induction obs with
  | nil => rfl
  | cons o rest ih =>
      have hstep : revealRuns true (o :: rest)
          = revealRuns (revealStep true o.1 o.2) rest := rfl
      rw [hstep, revealStep_true, ih]

/-- C7: section-highlight state is bidirectional: whatever the previous
marker state, a run of the evaluator leaves the highlight marker present
exactly when the section's top offset lies strictly inside the qualifying
band (t < h - 50 and t > -h/2), so a section moving in and out of the band
has its marker toggled both ways across repeated evaluations. -/
theorem highlightStep_band (active : Bool) (t h : ℚ) :
    highlightStep active t h = true ↔ (t < h - 50 ∧ (-h) / 2 < t) := by
  simp [highlightStep, gt_iff_lt]

/-- State of the header-scroll machinery (src/script.js lines 380-450 in
version 1; identical in version 2, lines 1135-1251).  scrolled is the
presence of the 'scrolled' class on the header, lastScrollY and ticking are
the module-level mutable variables of the script, scrollY is window.scrollY,
and headerPresent records whether getElementById('header') found the header
(the JS guards the class update with `if (header)`).  runs and evaluatedY
are instrumentation fields, not present in the JS: runs counts executions of
updateHeader and evaluatedY records the scroll position it last read. -/
structure ScrollState where
  headerPresent : Bool
  scrolled : Bool
  lastScrollY : ℚ
  ticking : Bool
  scrollY : ℚ
  runs : Nat
  evaluatedY : Option ℚ
deriving DecidableEq

/-- updateHeader (src/script.js lines 422-436): reads currentScrollY =
window.scrollY; if the header element exists, adds the 'scrolled' class when
currentScrollY > 50 and removes it otherwise; then stores lastScrollY and
clears the ticking flag.  The two instrumentation fields record that one
execution happened at the current scroll position. -/
def updateHeader (s : ScrollState) : ScrollState :=
  { s with
    scrolled := if s.headerPresent then decide (s.scrollY > 50) else s.scrolled
    lastScrollY := s.scrollY
    ticking := false
    runs := s.runs + 1
    evaluatedY := some s.scrollY }

/-- onScroll (src/script.js lines 439-444): if the ticking flag is clear,
schedule updateHeader via requestAnimationFrame and set the flag; otherwise
do nothing.  Scheduling is modelled by the ticking flag itself: a
requestAnimationFrame callback is pending exactly when ticking is set,
because the script sets the flag at the moment it schedules and the callback
clears it when it runs; frameTick below runs the callback under that
condition. -/
def onScroll (s : ScrollState) : ScrollState :=
  if s.ticking then s else { s with ticking := true }

/-- One raw scroll event: the browser updates window.scrollY to y and then
fires the scroll listener, which is onScroll. -/
def scrollEvent (y : ℚ) (s : ScrollState) : ScrollState :=
  onScroll { s with scrollY := y }

/-- A finite burst of raw scroll events, in order. -/
def scrollEvents (ps : List ℚ) (s : ScrollState) : ScrollState :=
  ps.foldl (fun acc y => scrollEvent y acc) s

/-- One rendered frame tick: the pending requestAnimationFrame callback
(updateHeader), if one was scheduled, runs; otherwise nothing happens. -/
def frameTick (s : ScrollState) : ScrollState :=
  if s.ticking then updateHeader s else s

theorem scrollEvent_runs (y : ℚ) (s : ScrollState) :
    (scrollEvent y s).runs = s.runs := by
  unfold scrollEvent onScroll
  split <;> rfl

theorem scrollEvents_runs (ps : List ℚ) (s : ScrollState) :
    (scrollEvents ps s).runs = s.runs := by
  induction ps generalizing s with
  | nil => rfl
  | cons p rest ih =>
      have hstep : scrollEvents (p :: rest) s
          = scrollEvents rest (scrollEvent p s) := rfl
      rw [hstep, ih, scrollEvent_runs]

/-- C2: however many raw scroll events fire within one frame interval (any
finite burst, in particular bursts of length 1, 10 or 1000), the
requestAnimationFrame throttle lets the wrapped updateHeader callback run at
most once at the frame tick that ends the interval. -/
theorem throttle_at_most_one_run (s : ScrollState) (ps : List ℚ) :
    (frameTick (scrollEvents ps s)).runs ≤ s.runs + 1 := by
  unfold frameTick
  split
  · have h1 : (updateHeader (scrollEvents ps s)).runs
        = (scrollEvents ps s).runs + 1 := rfl
    rw [h1, scrollEvents_runs]
  · rw [scrollEvents_runs]
    exact Nat.le_succ s.runs

/-- C3: the throttle contract: a raw scroll event leaves the scheduled
(ticking) flag set; the updateHeader callback clears the flag after running;
and after any finite sequence of scroll events ending at position y followed
by a frame tick, updateHeader has been run reading exactly y, the position
of the last scroll event before the pause (no dropped final state). -/
theorem throttle_no_dropped_state (s : ScrollState) (y : ℚ) (ps : List ℚ) :
    (scrollEvent y s).ticking = true ∧
    (updateHeader s).ticking = false ∧
    (frameTick (scrollEvents (ps ++ [y]) s)).evaluatedY = some y := by
  refine ⟨?_, rfl, ?_⟩
  · by_cases hc : s.ticking <;> simp [scrollEvent, onScroll, hc]
  · have happ : scrollEvents (ps ++ [y]) s
        = scrollEvent y (scrollEvents ps s) := by
      unfold scrollEvents
      rw [List.foldl_append]
      rfl
    rw [happ]
    by_cases hc : (scrollEvents ps s).ticking <;>
      simp [scrollEvent, onScroll, frameTick, updateHeader, hc]

/-- C10: after a run of updateHeader on a document whose header element is
present, the header carries the 'scrolled' class exactly when the current
scroll position is strictly greater than 50 (whatever the class state
before, so the run both adds and removes the class as the threshold is
crossed); and at a scroll position of exactly 50 the class is absent. -/
theorem updateHeader_scrolled (s : ScrollState) (hp : s.headerPresent = true) :
    ((updateHeader s).scrolled = true ↔ s.scrollY > 50) ∧
      (updateHeader { s with scrollY := 50 }).scrolled = false := by
  constructor
  · simp [updateHeader, hp]
  · simp [updateHeader, hp]

/-- A concrete scroll state used to witness the hypotheses of the theorems
about updateHeader. -/
def sampleScrollState : ScrollState :=
  { headerPresent := true
    scrolled := true
    lastScrollY := 0
    ticking := false
    scrollY := 20
    runs := 0
    evaluatedY := none }

theorem updateHeader_scrolled_witness :
    sampleScrollState.headerPresent = true ∧
    (((updateHeader sampleScrollState).scrolled = true
        ↔ sampleScrollState.scrollY > 50) ∧
      (updateHeader { sampleScrollState with scrollY := 50 }).scrolled
        = false) :=
  ⟨rfl, updateHeader_scrolled sampleScrollState rfl⟩

/-- DOMTokenList.toggle on a class list: remove the token if present,
append it if absent. -/
def classToggle (cl : List String) (c : String) : List String :=
  if c ∈ cl then cl.filter (fun x => x ≠ c) else cl ++ [c]

/-- The navigation-toggle click handler (version 1, src/script.js lines
394-405, and initMobileMenu in version 2, lines 1175-1190): both execute
navMenu.classList.toggle('active') on the menu's class list (the icon swap
they also perform touches the icon element, not the menu). -/
def navToggleClick (menu : List String) : List String :=
  classToggle menu "active"

/-- C4: applying the navigation-toggle click handler twice returns the
menu's 'active' marker state to its original value, for every initial class
list of the menu. -/
theorem navToggleClick_involutive (menu : List String) :
    ("active" ∈ navToggleClick (navToggleClick menu)) ↔ "active" ∈ menu := by
  by_cases hm : "active" ∈ menu
  · have h1 : navToggleClick menu = menu.filter (fun x => x ≠ "active") := by
      simp [navToggleClick, classToggle, hm]
    have h2 : "active" ∉ menu.filter (fun x => x ≠ "active") := by
      simp [List.mem_filter]
    have h3 : navToggleClick (menu.filter (fun x => x ≠ "active"))
        = menu.filter (fun x => x ≠ "active") ++ ["active"] := by
      simp [navToggleClick, classToggle, h2]
    rw [h1, h3]
    simp [hm]
  · have h1 : navToggleClick menu = menu ++ ["active"] := by
      simp [navToggleClick, classToggle, hm]
    have h2 : "active" ∈ menu ++ ["active"] := by simp
    have h3 : navToggleClick (menu ++ ["active"])
        = (menu ++ ["active"]).filter (fun x => x ≠ "active") := by
      simp [navToggleClick, classToggle, h2]
    rw [h1, h3]
    simp [List.mem_filter, hm]

/-- Presence of the optional control elements in the host document, plus the
'show' class state of the back-to-top button. -/
structure Doc where
  navTogglePresent : Bool
  navMenuPresent : Bool
  backToTopPresent : Bool
  backToTopShown : Bool
deriving DecidableEq

/-- The back-to-top scroll handler (src/script.js lines 454-462; identical
in version 2, lines 1255-1263): `if (!backToTopButton) return;` then adds
the 'show' class when window.pageYOffset > 300 and removes it otherwise.
The early return makes a missing button a silent no-op; the handler is a
total function and raises nothing. -/
def backToTopOnScroll (d : Doc) (y : ℚ) : Doc :=
  if d.backToTopPresent = false then d
  else if y > 300 then { d with backToTopShown := true }
  else { d with backToTopShown := false }

/-- enhanceAccessibility (src/script.js lines 750-770; identical in version
2, lines 1416-1436).  At call time it registers a keydown listener (which
cannot raise) and then executes navToggle.setAttribute('aria-label', ...),
navToggle.setAttribute('aria-expanded', ...) and
navToggle.addEventListener(...) with no null guard, so when the
navigation-toggle element is absent the property access on null raises a
TypeError; when it is present the call returns normally. -/
def enhanceAccessibility (d : Doc) : Except String Unit :=
  if d.navTogglePresent = false then
    Except.error "TypeError: navToggle is null"
  else Except.ok ()

/-- C5 counterexample: for the document lacking the navigation toggle (one
of the optional control elements the claim quantifies over), the
accessibility setup step does not complete without raising: it throws a
TypeError, which is not a silent no-op. -/
theorem enhanceAccessibility_missing_toggle_raises :
    enhanceAccessibility
        { navTogglePresent := false, navMenuPresent := true
          backToTopPresent := true, backToTopShown := false }
      ≠ Except.ok () := by
  simp [enhanceAccessibility]

/-- C5 (amended): a missing back-to-top button is a silent no-op — its
scroll handler raises nothing and leaves the document unchanged — and
initialization's accessibility step completes without raising whenever the
navigation toggle is present; a missing navigation toggle, by contrast,
makes enhanceAccessibility raise (the error is then caught by the try in
initializeApp, not silently ignored). -/
theorem missing_back_to_top_silent (d : Doc) (y : ℚ)
    (hn : d.navTogglePresent = true) (hb : d.backToTopPresent = false) :
    enhanceAccessibility d = Except.ok () ∧ backToTopOnScroll d y = d := by
  constructor
  · simp [enhanceAccessibility, hn]
  · simp [backToTopOnScroll, hb]

theorem missing_back_to_top_silent_witness :
    (Doc.mk true true false false).navTogglePresent = true ∧
    (Doc.mk true true false false).backToTopPresent = false ∧
    (enhanceAccessibility (Doc.mk true true false false) = Except.ok () ∧
      backToTopOnScroll (Doc.mk true true false false) 400
        = Doc.mk true true false false) :=
  ⟨rfl, rfl, missing_back_to_top_silent (Doc.mk true true false false) 400 rfl rfl⟩

/-- The setup steps executed by version 1 of the script (src/script.js
lines 1-881), in source order.  The first eight are top-level statements:
the initProfessionalFeatures() call at line 378, the mobile-menu wiring at
394, the nav-link close wiring at 408, the initial updateHeader() call at
447, the header scroll-listener registration at 450, the back-to-top
scroll-listener registration at 454, the back-to-top click wiring at 465,
and the navbar-highlight setup at lines 633-708.  The last eight are the
statements of the body of initializeApp (lines 811-829). -/
inductive SetupStep where
  | initProfessionalFeaturesCall
  | wireMobileMenu
  | wireNavLinkClose
  | initialUpdateHeader
  | wireHeaderScroll
  | wireBackToTopScroll
  | wireBackToTopClick
  | navHighlightSetup
  | initRevealAnimationsStep
  | smoothScrollStep
  | lazyLoadImagesStep
  | enhanceAccessibilityStep
  | handleErrorStep
  | measurePerformanceStep
  | wireRevealListener
  | initialRevealCheck
deriving DecidableEq, Repr

/-- The setup steps that execute at the top level of the script, before and
outside the try of initializeApp. -/
def unguardedSteps : List SetupStep :=
  [SetupStep.initProfessionalFeaturesCall, SetupStep.wireMobileMenu,
   SetupStep.wireNavLinkClose, SetupStep.initialUpdateHeader,
   SetupStep.wireHeaderScroll, SetupStep.wireBackToTopScroll,
   SetupStep.wireBackToTopClick, SetupStep.navHighlightSetup]

/-- The setup steps that execute inside the try of initializeApp
(src/script.js lines 811-829). -/
def guardedSteps : List SetupStep :=
  [SetupStep.initRevealAnimationsStep, SetupStep.smoothScrollStep,
   SetupStep.lazyLoadImagesStep, SetupStep.enhanceAccessibilityStep,
   SetupStep.handleErrorStep, SetupStep.measurePerformanceStep,
   SetupStep.wireRevealListener, SetupStep.initialRevealCheck]

/-- Run a sequence of setup steps given an oracle saying which steps throw:
the first throwing step aborts the rest of the sequence and surfaces as an
exception. -/
def runSeq (fails : SetupStep → Bool) : List SetupStep → Except SetupStep Unit
  | [] => Except.ok ()
  | s :: rest => if fails s then Except.error s else runSeq fails rest

/-- initializeApp (src/script.js lines 810-834): its body runs inside a
try/catch, so a failing step is caught and only logged; the caught step, if
any, is returned. -/
def initializeApp (fails : SetupStep → Bool) : Option SetupStep :=
  match runSeq fails guardedSteps with
  | Except.ok _ => none
  | Except.error s => some s

/-- The whole script run: the top-level setup statements execute with no
surrounding try, so an exception in them propagates out of the script; if
they all succeed, init() calls initializeApp, whose failures are caught. -/
def runScript (fails : SetupStep → Bool) : Except SetupStep (Option SetupStep) :=
  match runSeq fails unguardedSteps with
  | Except.error s => Except.error s
  | Except.ok _ => Except.ok (initializeApp fails)

/-- C6 counterexample: a failure in the setup step
initProfessionalFeatures() is not caught and only logged — it propagates out
of the script run, because that step executes at line 378, outside the try
of initializeApp; so not all setup steps run inside the guarded region. -/
theorem initProfessionalFeatures_failure_propagates :
    runScript (fun s => decide (s = SetupStep.initProfessionalFeaturesCall))
      = Except.error SetupStep.initProfessionalFeaturesCall := rfl

theorem runSeq_ok_of_no_failure (fails : SetupStep → Bool)
    (l : List SetupStep) (h : ∀ s ∈ l, fails s = false) :
    runSeq fails l = Except.ok () := by
  induction l with
  | nil => rfl
  | cons s rest ih =>
      have hs : fails s = false := h s (List.mem_cons_self s rest)
      have hrest : ∀ t ∈ rest, fails t = false :=
        fun t ht => h t (List.mem_cons_of_mem s ht)
      simp [runSeq, hs]
      exact ih hrest

/-- C6 (amended): only the steps of the initializeApp body run inside the
scoped try — a failure among them is caught and only logged, and the script
run still completes; the remaining setup steps (initProfessionalFeatures and
the module-level listener wiring) execute outside the guarded region, so the
guarantee holds only when none of those unguarded steps fails. -/
theorem guarded_failures_are_caught (fails : SetupStep → Bool)
    (h : ∀ s ∈ unguardedSteps, fails s = false) :
    runScript fails = Except.ok (initializeApp fails) := by
  have hok : runSeq fails unguardedSteps = Except.ok () :=
    runSeq_ok_of_no_failure fails unguardedSteps h
  simp [runScript, hok]

theorem guarded_failures_are_caught_witness :
    (∀ s ∈ unguardedSteps,
      (fun s => decide (s = SetupStep.enhanceAccessibilityStep)) s = false) ∧
    runScript (fun s => decide (s = SetupStep.enhanceAccessibilityStep))
      = Except.ok (initializeApp
          (fun s => decide (s = SetupStep.enhanceAccessibilityStep))) :=
  ⟨by decide,
   guarded_failures_are_caught
     (fun s => decide (s = SetupStep.enhanceAccessibilityStep)) (by decide)⟩

end MQT
